import Mathlib

/-!
Verification of an LC-3 virtual machine written in C (main.c / main.h).

The embedding below translates the interpreter of `main.c` (the complete
LC-3 implementation: globals `memory` and `reg`, `sign_extend`,
`update_flags`, and the fetch-decode-execute loop body of `main`) into
executable Lean definitions.

Modelling conventions:
- 16-bit cells (`uint16_t`) are `Nat` with an explicit `% 65536` at every
  assignment to a cell, exactly where the C assignment truncates.
- the global arrays `reg[R_COUNT]` and `memory[MEMORY_MAX]` become the
  fields of `Machine`; `running` is the local variable of `main`'s loop,
  carried alongside so that theorems can speak about it (no statement of
  the loop body assigns it).
- a C array access with an index outside the array's bounds is undefined
  behavior; the embedding makes such accesses explicit failures
  (`Option` reads/writes, the `StepResult.oob` outcome).
- `getchar()` is modelled by the parameter `key` (the value that the call
  would produce, after conversion to `uint16_t` it is `key % 65536`).
- host console diagnostics (the per-cycle trace `printf`, the `IN` prompt
  text, the RTI/RES diagnostic lines) are not modelled; the output list
  carries exactly the guest-data bytes written by `putc`/`putchar`.
-/

namespace LC3

/-- The machine state: the C globals `reg[R_COUNT]` (indices 0-7 the
general registers, 8 = `R_PC`, 9 = `R_COND`) and
`memory[MEMORY_MAX]` (addresses 0 .. 65535), together with the local
variable `running` of `main` (initialized to 1 and never assigned
afterwards in the loop body). -/
structure Machine where
  reg : Nat → Nat
  mem : Nat → Nat
  running : Bool

/-- Assignment `reg[i] = v` : storing into a `uint16_t` cell truncates
the assigned value to 16 bits. -/
def setReg (s : Machine) (i v : Nat) : Machine :=
  { s with reg := fun j => if j = i then v % 65536 else s.reg j }

/-- Read `memory[a]`: the C array has 65536 entries, so an index past
65535 is an out-of-bounds access (undefined behavior), modelled as
`none`. -/
def memRead (s : Machine) (a : Nat) : Option Nat :=
  if a < 65536 then some (s.mem a) else none

/-- Write `memory[a] = v`, with the same bounds condition as `memRead`
and the `uint16_t` truncation of the stored value. -/
def memWrite (s : Machine) (a v : Nat) : Option Machine :=
  if a < 65536 then
    some { s with mem := fun b => if b = a then v % 65536 else s.mem b }
  else none

/-- `sign_extend` from main.c:

    uint16_t sign_extend(uint16_t x, int bit_count)
    {
        if ((x >> (bit_count - 1)) & 1)
        {
            x |= (0xFFFF << bit_count);
        }
        return x;
    }

The assignment `x |= ...` stores into a `uint16_t`, truncating the
widened `int` result to 16 bits. -/
def sign_extend (x : Nat) (bit_count : Nat) : Nat :=
  if (x >>> (bit_count - 1)) &&& 1 = 1 then
    (x ||| (0xFFFF <<< bit_count)) % 65536
  else
    x

/-- `update_flags` from main.c: sets `reg[R_COND]` (index 9) to
`FL_ZRO = 2` when `reg[r]` is zero, `FL_NEG = 4` when its bit 15 is set
(the C test `reg[r] >> 15` is truthiness, i.e. nonzero), `FL_POS = 1`
otherwise. -/
def update_flags (s : Machine) (r : Nat) : Machine :=
  if s.reg r = 0 then setReg s 9 2
  else if s.reg r >>> 15 ≠ 0 then setReg s 9 4
  else setReg s 9 1

/-- The TRAP_PUTS loop of main.c:

    str_ptr = &memory[reg[R_R0]];
    while (*str_ptr != 0) { c = (char)(*str_ptr); putc(c, stdout); str_ptr++; }

transcribed with the pointer as the index `i` and an explicit fuel for
structural recursion.  The pointer walks upward with no wrap and no
bound: as soon as `i` leaves the array (`i ≥ 65536`) the dereference is
out of bounds, modelled by `none`.  The fuel used by `putsScan` is
larger than any possible number of in-bounds iterations, so the fuel-0
branch is unreachable from an in-bounds start. -/
def putsScanAux (mem : Nat → Nat) : Nat → Nat → Option (List Nat)
  | _, 0 => none
  | i, fuel + 1 =>
    if i < 65536 then
      if mem i = 0 then some []
      else
        match putsScanAux mem (i + 1) fuel with
        | some rest => some (mem i % 256 :: rest)
        | none => none
    else none

/-- The TRAP_PUTS scan starting at index `i` (see `putsScanAux`). -/
def putsScan (mem : Nat → Nat) (i : Nat) : Option (List Nat) :=
  putsScanAux mem i 70000

/-- Outcome of one iteration of the `while (running)` loop body:
`ok` = the body completed and control returns to the loop head
(`break` out of the switch); `aborted` = `abort()` was reached;
`oob` = an out-of-bounds array access (undefined behavior). `ok` and
`aborted` carry the machine state and the bytes written to stdout. -/
inductive StepResult where
  | ok (s : Machine) (out : List Nat)
  | aborted (s : Machine) (out : List Nat)
  | oob
deriving Inhabited

def StepResult.isOk : StepResult → Bool
  | .ok _ _ => true
  | _ => false

def StepResult.isAborted : StepResult → Bool
  | .aborted _ _ => true
  | _ => false

def StepResult.isOob : StepResult → Bool
  | .oob => true
  | _ => false

def StepResult.machineAfter : StepResult → Option Machine
  | .ok s _ => some s
  | .aborted s _ => some s
  | .oob => none

def StepResult.outAfter : StepResult → Option (List Nat)
  | .ok _ o => some o
  | .aborted _ o => some o
  | .oob => none

def StepResult.regAfter (r : StepResult) (i : Nat) : Option Nat :=
  r.machineAfter.map fun s => s.reg i

def StepResult.pcAfter (r : StepResult) : Option Nat :=
  r.regAfter 8

def StepResult.condAfter (r : StepResult) : Option Nat :=
  r.regAfter 9

def StepResult.memAfter (r : StepResult) (a : Nat) : Option Nat :=
  r.machineAfter.map fun s => s.mem a

def StepResult.runningAfter (r : StepResult) : Option Bool :=
  r.machineAfter.map fun s => s.running

/-- The EXECUTE stage: the `switch (op)` of main.c, applied to the
post-fetch state `s` (PC already incremented).  Transcribed case by
case; the branch conditions, operand extractions and assignment order
follow the C text.  Notable source facts preserved here:
- `OP_AND` calls `update_flags(0)` (literal register 0, not `r0`);
- `OP_JMP` extracts `baseR` as `(instr >> 9) & 0x7` (bits 11:9);
- `OP_RTI` and `OP_RES` print a diagnostic and `break` (no state
  change, execution continues);
- the `OP_TRAP` case has no `break` after its inner `switch`, so after
  any trap service routine control falls through into `default:`,
  which calls `abort()`;
- the inner trap switch has no case for `TRAP_HALT` (0x25) and no
  default, so an unmatched vector does nothing before the fall-through;
- `TRAP_IN` calls `update_flags(reg[R_R0])`, passing the value just
  read as a register *index*; when that value is ≥ 10 the read
  `reg[reg[R_R0]]` inside `update_flags` is out of the 10-entry array. -/
def exec (key : Nat) (instr : Nat) (s : Machine) : StepResult :=
  let op := instr >>> 12
  if op = 0 then
    -- case OP_BR
    let pc_offset := sign_extend (instr &&& 0x1FF) 9
    let cond_flag := (instr >>> 9) &&& 0x7
    if cond_flag &&& s.reg 9 ≠ 0 then
      StepResult.ok (setReg s 8 (s.reg 8 + pc_offset)) []
    else
      StepResult.ok s []
  else if op = 1 then
    -- case OP_ADD
    let dr := (instr >>> 9) &&& 0x7
    let r1 := (instr >>> 6) &&& 0x7
    let imm_flag := (instr >>> 5) &&& 0x1
    let s1 :=
      if imm_flag = 1 then
        setReg s dr (s.reg r1 + sign_extend (instr &&& 0x1F) 5)
      else
        setReg s dr (s.reg r1 + s.reg (instr &&& 0x7))
    StepResult.ok (update_flags s1 dr) []
  else if op = 2 then
    -- case OP_LD : reg[dr] = memory[reg[R_PC] + pc_offset]
    -- (the index is the untruncated int sum, as in the C expression)
    let dr := (instr >>> 9) &&& 0x7
    let pc_offset := sign_extend (instr &&& 0x1FF) 9
    match memRead s (s.reg 8 + pc_offset) with
    | some v => StepResult.ok (update_flags (setReg s dr v) dr) []
    | none => StepResult.oob
  else if op = 3 then
    -- case OP_ST : memory[reg[R_PC] + pc_offset] = reg[dr]
    let dr := (instr >>> 9) &&& 0x7
    let pc_offset := sign_extend (instr &&& 0x1FF) 9
    match memWrite s (s.reg 8 + pc_offset) (s.reg dr) with
    | some s1 => StepResult.ok s1 []
    | none => StepResult.oob
  else if op = 4 then
    -- case OP_JSR : reg[R_R7] = reg[R_PC] happens first
    let long_flag := (instr >>> 11) &&& 1
    let s1 := setReg s 7 (s.reg 8)
    if long_flag = 1 then
      StepResult.ok (setReg s1 8 (s1.reg 8 + sign_extend (instr &&& 0x7FF) 11)) []
    else
      StepResult.ok (setReg s1 8 (s1.reg ((instr >>> 6) &&& 0x7))) []
  else if op = 5 then
    -- case OP_AND ; the source calls update_flags(0)
    let r0 := (instr >>> 9) &&& 0x7
    let r1 := (instr >>> 6) &&& 0x7
    let imm_flag := (instr >>> 5) &&& 0x1
    let s1 :=
      if imm_flag ≠ 0 then
        setReg s r0 (s.reg r1 &&& sign_extend (instr &&& 0x1F) 5)
      else
        setReg s r0 (s.reg r1 &&& s.reg (instr &&& 0x7))
    StepResult.ok (update_flags s1 0) []
  else if op = 6 then
    -- case OP_LDR : reg[r0] = memory[reg[r1] + offset]
    let r0 := (instr >>> 9) &&& 0x7
    let r1 := (instr >>> 6) &&& 0x7
    let offset := sign_extend (instr &&& 0x3F) 6
    match memRead s (s.reg r1 + offset) with
    | some v => StepResult.ok (update_flags (setReg s r0 v) r0) []
    | none => StepResult.oob
  else if op = 7 then
    -- case OP_STR : memory[reg[r1] + offset] = reg[r0]
    let r0 := (instr >>> 9) &&& 0x7
    let r1 := (instr >>> 6) &&& 0x7
    let offset := sign_extend (instr &&& 0x3F) 6
    match memWrite s (s.reg r1 + offset) (s.reg r0) with
    | some s1 => StepResult.ok s1 []
    | none => StepResult.oob
  else if op = 8 then
    -- case OP_RTI : prints "RTI instruction not implemented", breaks
    StepResult.ok s []
  else if op = 9 then
    -- case OP_NOT : reg[dr] = ~reg[sr] (one's complement of the 16-bit value)
    let dr := (instr >>> 9) &&& 0x7
    let sr := (instr >>> 6) &&& 0x7
    StepResult.ok (update_flags (setReg s dr (s.reg sr ^^^ 0xFFFF)) dr) []
  else if op = 10 then
    -- case OP_LDI : addr = memory[reg[R_PC] + pc_offset]; reg[dr] = memory[addr]
    -- (`addr` is a uint16_t local, hence the truncation)
    let dr := (instr >>> 9) &&& 0x7
    let pc_offset := sign_extend (instr &&& 0x1FF) 9
    match memRead s (s.reg 8 + pc_offset) with
    | some a =>
      match memRead s (a % 65536) with
      | some v => StepResult.ok (update_flags (setReg s dr v) dr) []
      | none => StepResult.oob
    | none => StepResult.oob
  else if op = 11 then
    -- case OP_STI : addr = memory[reg[R_PC] + pc_offset]; memory[addr] = reg[sr]
    let sr := (instr >>> 9) &&& 0x7
    let pc_offset := sign_extend (instr &&& 0x1FF) 9
    match memRead s (s.reg 8 + pc_offset) with
    | some a =>
      match memWrite s (a % 65536) (s.reg sr) with
      | some s1 => StepResult.ok s1 []
      | none => StepResult.oob
    | none => StepResult.oob
  else if op = 12 then
    -- case OP_JMP : baseR = (instr >> 9) & 0x7 in the source (bits 11:9)
    let baseR := (instr >>> 9) &&& 0x7
    StepResult.ok (setReg s 8 (s.reg baseR)) []
  else if op = 13 then
    -- case OP_RES : prints "Reserved opcode encountered", breaks
    StepResult.ok s []
  else if op = 14 then
    -- case OP_LEA : reg[dr] = reg[R_PC] + pc_offset
    let dr := (instr >>> 9) &&& 0x7
    let pc_offset := sign_extend (instr &&& 0x1FF) 9
    StepResult.ok (update_flags (setReg s dr (s.reg 8 + pc_offset)) dr) []
  else if op = 15 then
    -- case OP_TRAP : reg[R_R7] = reg[R_PC]; switch (instr & 0xFF) ...
    -- and then, for every vector, fall through into default: abort()
    let s1 := setReg s 7 (s.reg 8)
    let trapvect := instr &&& 0xFF
    if trapvect = 0x20 then
      -- TRAP_GETC : reg[R_R0] = (uint16_t)getchar(); update_flags(R_R0)
      StepResult.aborted (update_flags (setReg s1 0 key) 0) []
    else if trapvect = 0x21 then
      -- TRAP_OUT : putc((char)reg[R_R0], stdout)
      StepResult.aborted s1 [s1.reg 0 % 256]
    else if trapvect = 0x22 then
      -- TRAP_PUTS : the unbounded pointer scan from reg[R_R0]
      match putsScan s1.mem (s1.reg 0) with
      | some out => StepResult.aborted s1 out
      | none => StepResult.oob
    else if trapvect = 0x23 then
      -- TRAP_IN : reg[R_R0] = (uint16_t)getchar(); echo; update_flags(reg[R_R0])
      let s2 := setReg s1 0 key
      if s2.reg 0 < 10 then
        StepResult.aborted (update_flags s2 (s2.reg 0)) [s2.reg 0 % 256]
      else
        StepResult.oob
    else if trapvect = 0x24 then
      -- TRAP_PUTSP : the case body is empty (only comments), falls out
      StepResult.aborted s1 []
    else
      -- no case matches (in particular 0x25, TRAP_HALT): nothing runs
      StepResult.aborted s1 []
  else
    -- default : abort()  (unreachable for a 16-bit instruction other
    -- than by the OP_TRAP fall-through, which is modelled above)
    StepResult.aborted s []

/-- One iteration of the `while (running)` loop of main.c:

    uint16_t instr = memory[reg[R_PC]++];
    uint16_t op = instr >> 12;
    switch (op) { ... }

The fetch indexes `memory` with the current (uint16_t) PC and then
increments PC with `uint16_t` wrap-around, before the switch runs. -/
def step (key : Nat) (s : Machine) : StepResult :=
  match memRead s (s.reg 8) with
  | some instr => exec key instr (setReg s 8 (s.reg 8 + 1))
  | none => StepResult.oob

/-! Concrete machine states used to evaluate the interpreter on specific
instructions.  Each starts like `main` does (COND = FL_ZRO = 2,
PC = 0x3000, `running` true, memory zero except where noted). -/

/-- State whose next instruction is 0xF025 (TRAP HALT). -/
def c1State : Machine :=
  { reg := fun i => if i = 8 then 0x3000 else if i = 9 then 2 else 0,
    mem := fun a => if a = 0x3000 then 0xF025 else 0,
    running := true }

/-- State whose next instruction is 0xF021 (TRAP OUT), with R0 = 65. -/
def c2State : Machine :=
  { reg := fun i => if i = 8 then 0x3000 else if i = 9 then 2 else
      if i = 0 then 65 else 0,
    mem := fun a => if a = 0x3000 then 0xF021 else 0,
    running := true }

/-- State whose next instruction is 0x5260 (AND R1, R1, #0), with
R0 = 0x8000 and R1 = 5. -/
def c3State : Machine :=
  { reg := fun i => if i = 8 then 0x3000 else if i = 9 then 2 else
      if i = 0 then 0x8000 else if i = 1 then 5 else 0,
    mem := fun a => if a = 0x3000 then 0x5260 else 0,
    running := true }

/-- State whose next instruction is 0x8000 (opcode 0x8, RTI). -/
def c4StateRTI : Machine :=
  { reg := fun i => if i = 8 then 0x3000 else if i = 9 then 2 else 0,
    mem := fun a => if a = 0x3000 then 0x8000 else 0,
    running := true }

/-- State whose next instruction is 0xD000 (opcode 0xD, RES). -/
def c4StateRES : Machine :=
  { reg := fun i => if i = 8 then 0x3000 else if i = 9 then 2 else 0,
    mem := fun a => if a = 0x3000 then 0xD000 else 0,
    running := true }

/-- State whose next instruction is 0xC1C0 (JMP with bits[8:6] = 7,
i.e. RET), with R0 = 0x1111 and R7 = 0x2222. -/
def c5State : Machine :=
  { reg := fun i => if i = 8 then 0x3000 else if i = 9 then 2 else
      if i = 0 then 0x1111 else if i = 7 then 0x2222 else 0,
    mem := fun a => if a = 0x3000 then 0xC1C0 else 0,
    running := true }

/-- State whose next instruction is 0x6040 (LDR R0, R1, #0), with
R1 = 0xFE00 (the KBSR address) and the cell at 0xFE00 holding 0x1234. -/
def c6State : Machine :=
  { reg := fun i => if i = 8 then 0x3000 else if i = 9 then 2 else
      if i = 1 then 0xFE00 else 0,
    mem := fun a => if a = 0x3000 then 0x6040 else
      if a = 0xFE00 then 0x1234 else 0,
    running := true }

/-- State whose next instruction is 0x2000 (LD R0, #0) at PC = 0xFDFF,
so that the load's effective address (post-fetch PC + 0) is exactly
0xFE00, the KBSR address, whose cell holds 0x1234. -/
def c6wState : Machine :=
  { reg := fun i => if i = 8 then 0xFDFF else if i = 9 then 2 else 0,
    mem := fun a => if a = 0xFDFF then 0x2000 else
      if a = 0xFE00 then 0x1234 else 0,
    running := true }

/-- State whose next instruction is 0x0E01 (BRnzp with PCoffset9 = 1). -/
def c7wState : Machine :=
  { reg := fun i => if i = 8 then 0x3000 else if i = 9 then 2 else 0,
    mem := fun a => if a = 0x3000 then 0x0E01 else 0,
    running := true }

/-- State whose next instruction is 0xF022 (TRAP PUTS) with R0 = 0xFFFD
and every memory word other than the instruction equal to 1: the scan
from 0xFFFD meets no terminator before running off the end of the
memory array. -/
def c9State : Machine :=
  { reg := fun i => if i = 8 then 0x3000 else if i = 9 then 2 else
      if i = 0 then 0xFFFD else 0,
    mem := fun a => if a = 0x3000 then 0xF022 else 1,
    running := true }

/-- A memory whose words at addresses 0 and 1 are 72 ('H') and whose
word at address 2 is the 0x0000 terminator. -/
def c9wMem : Nat → Nat := fun a => if a < 2 then 72 else 0

/-- State whose next instruction is 0x41C0 (JSR register mode with
bits[8:6] = 7, i.e. JSRR R7), with R7 = 0xAAAA. -/
def c10wState : Machine :=
  { reg := fun i => if i = 8 then 0x3000 else if i = 9 then 2 else
      if i = 7 then 0xAAAA else 0,
    mem := fun a => if a = 0x3000 then 0x41C0 else 0,
    running := true }

/-! Basic lemmas about the state operations. -/

theorem setReg_reg (s : Machine) (i v j : Nat) :
    (setReg s i v).reg j = if j = i then v % 65536 else s.reg j := rfl

theorem setReg_mem (s : Machine) (i v a : Nat) : (setReg s i v).mem a = s.mem a := rfl

theorem setReg_running (s : Machine) (i v : Nat) : (setReg s i v).running = s.running := rfl

theorem update_flags_reg_ne (s : Machine) (r j : Nat) (h : j ≠ 9) :
    (update_flags s r).reg j = s.reg j := by
  unfold update_flags
  split
  · simp [setReg_reg, h]
  · split <;> simp [setReg_reg, h]

theorem update_flags_mem (s : Machine) (r a : Nat) :
    (update_flags s r).mem a = s.mem a := by
  unfold update_flags
  split
  · rfl
  · split <;> rfl

/-- Auxiliary for C9: when a terminator 0x0000 exists at address `t`
(within the memory array) and every word from `i` up to it is nonzero,
the PUTS scan stops there and yields the low byte of each scanned word,
for any sufficient fuel. -/
theorem putsScanAux_terminator (mem : Nat → Nat) (fuel : Nat) :
    ∀ i t, i ≤ t → t < 65536 → mem t = 0 →
      (∀ a, i ≤ a → a < t → mem a ≠ 0) → t - i < fuel →
      putsScanAux mem i fuel = some ((List.range' i (t - i)).map fun a => mem a % 256) := by
  induction fuel with
  | zero => intro i t h1 h2 h3 h4 h5; omega
  | succ fuel ih =>
    intro i t h1 h2 h3 h4 h5
    simp only [putsScanAux]
    rw [if_pos (by omega : i < 65536)]
    by_cases hit : i = t
    · subst hit
      rw [if_pos h3]
      simp
    · have hne : mem i ≠ 0 := h4 i (Nat.le_refl i) (by omega)
      rw [if_neg hne]
      rw [ih (i + 1) t (by omega) h2 h3 (fun a ha ha' => h4 a (by omega) ha') (by omega)]
      have ht : t - i = (t - (i + 1)) + 1 := by omega
      rw [ht, List.range'_succ]
      simp

/-! Claims. -/

/-- C1: the claim says that TRAP 0x25 (HALT) sets `running` to false and
that the loop terminates exactly when `running` is false.  Evaluating
the interpreter on the claim's situation (next instruction 0xF025)
shows what the code actually does: the inner trap switch has no case
for vector 0x25, the OP_TRAP case has no break, control falls into the
outer `default:` and `abort()` runs — and `running`, which no statement
of the loop body ever assigns, is still true.  Nothing in the code ever
makes `running` false. -/
theorem c1_trap_halt_aborts :
    (step 0 c1State).isAborted = true ∧ (step 0 c1State).isOk = false ∧
    (step 0 c1State).runningAfter = some true := by decide

/-- C2: the claim says that after any trap service routine runs,
execution continues with the next sequential fetch.  Evaluating the
interpreter on a TRAP OUT (0xF021, R0 = 65): the routine does run (the
byte 65 is emitted and PC still holds the post-fetch value 0x3001), but
the missing break after the inner switch drops control into `default:`
and the machine aborts instead of proceeding to the next fetch. -/
theorem c2_trap_out_aborts :
    (step 0 c2State).isAborted = true ∧ (step 0 c2State).isOk = false ∧
    (step 0 c2State).outAfter = some [65] ∧
    (step 0 c2State).pcAfter = some 0x3001 := by decide

/-- C3: the claim says COND is always computed from the final value of
the destination register.  Evaluating AND R1, R1, #0 (0x5260) with
R0 = 0x8000 and R1 = 5: the destination R1 becomes 0, so the claim
requires COND = Z = 0b010; but OP_AND calls `update_flags(0)` and COND
is computed from R0 = 0x8000, giving N = 0b100. -/
theorem c3_and_flags_from_wrong_register :
    (step 0 c3State).regAfter 1 = some 0 ∧
    (step 0 c3State).condAfter = some 4 ∧
    (step 0 c3State).condAfter ≠ some 2 := by decide

/-- C4, counterexample: the claim says RTI (0x8) and RES (0xD) fail with
a fatal IllegalInstruction error, the emulator stopping rather than
continuing.  Evaluating both opcodes: each completes as an ordinary
loop iteration (`isOk`), with PC advanced to the next instruction —
execution continues; nothing exits. -/
theorem c4_counterexample :
    (step 0 c4StateRTI).isOk = true ∧ (step 0 c4StateRES).isOk = true ∧
    (step 0 c4StateRTI).pcAfter = some 0x3001 ∧
    (step 0 c4StateRES).pcAfter = some 0x3001 := by decide

/-- C4, amended: executing an instruction whose opcode is 0x8 (RTI) or
0xD (RES) merely prints a diagnostic and continues: the iteration
completes normally with the machine unchanged except for the PC
increment of fetch, and no abort or exit happens. -/
theorem c4_rti_res_continue (s : Machine) (key instr : Nat)
    (hf : memRead s (s.reg 8) = some instr)
    (hop : instr >>> 12 = 8 ∨ instr >>> 12 = 13) :
    step key s = StepResult.ok (setReg s 8 (s.reg 8 + 1)) [] := by
  unfold step
  rw [hf]
  rcases hop with h | h <;> simp [exec, h]

/-- C4, witness: the amended theorem evaluated at the RTI state. -/
theorem c4_witness :
    step 0 c4StateRTI = StepResult.ok (setReg c4StateRTI 8 (c4StateRTI.reg 8 + 1)) [] :=
  c4_rti_res_continue c4StateRTI 0 0x8000 (by decide) (Or.inl (by decide))

/-- C5: the claim says JMP assigns PC from the register in bits [8:6].
Evaluating RET = 0xC1C0 (bits[8:6] = 7, bits[11:9] = 0) with
R0 = 0x1111 and R7 = 0x2222: the code extracts `baseR` as
`(instr >> 9) & 0x7` and PC becomes R0's value 0x1111, not R7's value
0x2222 as the claim requires. -/
theorem c5_jmp_reads_bits_11_9 :
    c5State.reg 0 = 0x1111 ∧ c5State.reg 7 = 0x2222 ∧
    (step 0 c5State).pcAfter = some 0x1111 ∧
    (step 0 c5State).pcAfter ≠ some 0x2222 := by decide

/-- C6, counterexample: the claim says a read of 0xFE00 (KBSR) polls the
keyboard and returns 0x8000 (placing the byte at 0xFE02) or 0.
Evaluating LDR R0, R1, #0 with R1 = 0xFE00 and the cell at 0xFE00
holding 0x1234: R0 receives the stored word 0x1234 — neither 0x8000
nor 0, whatever the keyboard state — and the cell at 0xFE02 is
untouched. -/
theorem c6_counterexample :
    (step 0 c6State).regAfter 0 = some 0x1234 ∧
    (step 0 c6State).regAfter 0 ≠ some 0x8000 ∧
    (step 0 c6State).regAfter 0 ≠ some 0 ∧
    (step 0 c6State).memAfter 0xFE02 = some 0 := by decide

/-- C6, amended: every memory read returns the stored word — including
at address 0xFE00 — and no read consults the keyboard or writes 0xFE02.
Stated for all of the read paths the claim names: the instruction fetch
itself delivers the stored word at PC; LD (opcode 2) puts the stored
word at (post-fetch PC + PCoffset9) into the destination register; LDR
(opcode 6) the stored word at (base register + offset6); LDI (opcode
10) the stored word at the address held in the stored word at
(post-fetch PC + PCoffset9) — both of LDI's reads being plain stored
words.  In every case the cell at 0xFE02 is unchanged.  The bound
hypotheses say the effective address stays inside the memory array and
that the loaded cell holds a 16-bit word. -/
theorem c6_reads_return_stored_word (s : Machine) (key instr : Nat)
    (hf : memRead s (s.reg 8) = some instr) :
    instr = s.mem (s.reg 8) ∧
    (instr >>> 12 = 2 →
      ∀ h2 : (s.reg 8 + 1) % 65536 + sign_extend (instr &&& 0x1FF) 9 < 65536,
      ∀ h2v : s.mem ((s.reg 8 + 1) % 65536 + sign_extend (instr &&& 0x1FF) 9) < 65536,
      (step key s).regAfter ((instr >>> 9) &&& 0x7) =
        some (s.mem ((s.reg 8 + 1) % 65536 + sign_extend (instr &&& 0x1FF) 9)) ∧
      (step key s).memAfter 0xFE02 = some (s.mem 0xFE02)) ∧
    (instr >>> 12 = 6 →
      ∀ h6 : s.reg ((instr >>> 6) &&& 0x7) + sign_extend (instr &&& 0x3F) 6 < 65536,
      ∀ h6v : s.mem (s.reg ((instr >>> 6) &&& 0x7) + sign_extend (instr &&& 0x3F) 6) < 65536,
      (step key s).regAfter ((instr >>> 9) &&& 0x7) =
        some (s.mem (s.reg ((instr >>> 6) &&& 0x7) + sign_extend (instr &&& 0x3F) 6)) ∧
      (step key s).memAfter 0xFE02 = some (s.mem 0xFE02)) ∧
    (instr >>> 12 = 10 →
      ∀ hA : (s.reg 8 + 1) % 65536 + sign_extend (instr &&& 0x1FF) 9 < 65536,
      ∀ hAv : s.mem (s.mem ((s.reg 8 + 1) % 65536 + sign_extend (instr &&& 0x1FF) 9) % 65536) < 65536,
      (step key s).regAfter ((instr >>> 9) &&& 0x7) =
        some (s.mem (s.mem ((s.reg 8 + 1) % 65536 + sign_extend (instr &&& 0x1FF) 9) % 65536)) ∧
      (step key s).memAfter 0xFE02 = some (s.mem 0xFE02)) := by
  have hpc : s.reg 8 < 65536 := by
    by_contra h
    simp [memRead, h] at hf
  have hinstr : instr = s.mem (s.reg 8) := by
    simp [memRead, hpc] at hf
    exact hf.symm
  have hdr : (instr >>> 9) &&& 0x7 ≠ 9 := by
    have := Nat.and_le_right (n := instr >>> 9) (m := 0x7)
    omega
  have hr1 : (instr >>> 6) &&& 0x7 ≠ 8 := by
    have := Nat.and_le_right (n := instr >>> 6) (m := 0x7)
    omega
  have hmod : ∀ n : Nat, n % 65536 < 65536 := fun n => Nat.mod_lt _ (by decide)
  refine ⟨hinstr, ?_, ?_, ?_⟩
  · intro hop h2 h2v
    unfold step
    rw [hf]
    simp [exec, hop, memRead, setReg_reg, setReg_mem, update_flags_reg_ne, update_flags_mem,
          hdr, h2, StepResult.regAfter, StepResult.memAfter, StepResult.machineAfter,
          Nat.mod_eq_of_lt h2v]
  · intro hop h6 h6v
    unfold step
    rw [hf]
    simp [exec, hop, memRead, setReg_reg, setReg_mem, update_flags_reg_ne, update_flags_mem,
          hr1, hdr, h6, StepResult.regAfter, StepResult.memAfter, StepResult.machineAfter,
          Nat.mod_eq_of_lt h6v]
  · intro hop hA hAv
    unfold step
    rw [hf]
    simp [exec, hop, memRead, setReg_reg, setReg_mem, update_flags_reg_ne, update_flags_mem,
          hdr, hA, hmod, StepResult.regAfter, StepResult.memAfter, StepResult.machineAfter,
          Nat.mod_eq_of_lt hAv]

/-- C6, witness: the amended theorem applied twice — at a state whose
LD instruction (0x2000 at PC = 0xFDFF) reads the cell at 0xFE00 (KBSR)
and receives its stored word 0x1234 (with the fetch conjunct showing
the fetched instruction is itself the stored word), and at the LDR
state of the counterexample. -/
theorem c6_witness :
    (0x2000 = c6wState.mem (c6wState.reg 8) ∧
     (step 0 c6wState).regAfter ((0x2000 >>> 9) &&& 0x7) =
       some (c6wState.mem ((c6wState.reg 8 + 1) % 65536 + sign_extend (0x2000 &&& 0x1FF) 9)) ∧
     (step 0 c6wState).memAfter 0xFE02 = some (c6wState.mem 0xFE02)) ∧
    ((step 0 c6State).regAfter ((0x6040 >>> 9) &&& 0x7) =
       some (c6State.mem (c6State.reg ((0x6040 >>> 6) &&& 0x7) + sign_extend (0x6040 &&& 0x3F) 6)) ∧
     (step 0 c6State).memAfter 0xFE02 = some (c6State.mem 0xFE02)) := by
  have h1 := c6_reads_return_stored_word c6wState 0 0x2000 (by decide)
  have h2 := c6_reads_return_stored_word c6State 0 0x6040 (by decide)
  exact ⟨⟨h1.1, h1.2.1 (by decide) (by decide) (by decide)⟩,
         h2.2.2.1 (by decide) (by decide) (by decide)⟩

/-- C7: on every cycle the fetch increments PC by exactly one modulo
2^16 before the instruction executes (the execute stage is applied to
the state with the incremented PC), and BR, when taken, assigns
PC ← (post-fetch PC) + PCoffset9 modulo 2^16, using the post-increment
PC as its reference point. -/
theorem c7_pc_increment (s : Machine) (key : Nat) (hpc : s.reg 8 < 65536) :
    step key s = exec key (s.mem (s.reg 8)) (setReg s 8 (s.reg 8 + 1)) ∧
    (setReg s 8 (s.reg 8 + 1)).reg 8 = (s.reg 8 + 1) % 65536 ∧
    (s.mem (s.reg 8) >>> 12 = 0 →
      (s.mem (s.reg 8) >>> 9) &&& 0x7 &&& s.reg 9 ≠ 0 →
      (step key s).pcAfter =
        some (((s.reg 8 + 1) % 65536 + sign_extend (s.mem (s.reg 8) &&& 0x1FF) 9) % 65536)) := by
  refine ⟨?_, ?_, ?_⟩
  · unfold step memRead
    rw [if_pos hpc]
  · simp [setReg_reg]
  · intro hbr hcond
    unfold step memRead
    rw [if_pos hpc]
    simp [exec, hbr, setReg_reg, hcond, StepResult.pcAfter, StepResult.regAfter,
          StepResult.machineAfter]

/-- C7, witness: the theorem evaluated at a state about to execute
BRnzp +1 (0x0E01) at PC = 0x3000 with COND = Z. -/
theorem c7_witness :
    c7wState.reg 8 < 65536 ∧
    (step 0 c7wState = exec 0 (c7wState.mem (c7wState.reg 8)) (setReg c7wState 8 (c7wState.reg 8 + 1)) ∧
     (setReg c7wState 8 (c7wState.reg 8 + 1)).reg 8 = (c7wState.reg 8 + 1) % 65536 ∧
     (c7wState.mem (c7wState.reg 8) >>> 12 = 0 →
       (c7wState.mem (c7wState.reg 8) >>> 9) &&& 0x7 &&& c7wState.reg 9 ≠ 0 →
       (step 0 c7wState).pcAfter =
         some (((c7wState.reg 8 + 1) % 65536 + sign_extend (c7wState.mem (c7wState.reg 8) &&& 0x1FF) 9) % 65536))) :=
  ⟨by decide, c7_pc_increment c7wState 0 (by decide)⟩

/-- C8: for a 16-bit `x` and 1 ≤ k ≤ 16, `sign_extend x k` equals `x`
when bit k-1 of `x` is 0, and equals `x ||| (0xFFFF <<< k)` reduced to
16 bits when bit k-1 of `x` is 1. -/
theorem c8_sign_extend_spec (x k : Nat) (hx : x < 65536) (hk1 : 1 ≤ k) (hk2 : k ≤ 16) :
    (Nat.testBit x (k - 1) = false → sign_extend x k = x) ∧
    (Nat.testBit x (k - 1) = true → sign_extend x k = (x ||| (0xFFFF <<< k)) % 65536) := by
  have hbit : ((x >>> (k - 1)) &&& 1 = 1) ↔ Nat.testBit x (k - 1) = true := by
    rw [Nat.and_one_is_mod, Nat.testBit_to_div_mod, Nat.shiftRight_eq_div_pow]
    simp
  constructor
  · intro h
    unfold sign_extend
    rw [if_neg]
    rw [hbit, h]
    simp
  · intro h
    unfold sign_extend
    rw [if_pos (hbit.mpr h)]

/-- C8, witness: the theorem evaluated with the sign bit clear
(x = 3, k = 5) and with it set (x = 0x10, k = 5). -/
theorem c8_witness :
    sign_extend 3 5 = 3 ∧ sign_extend 0x10 5 = (0x10 ||| (0xFFFF <<< 5)) % 65536 :=
  ⟨(c8_sign_extend_spec 3 5 (by decide) (by decide) (by decide)).1 (by decide),
   (c8_sign_extend_spec 0x10 5 (by decide) (by decide) (by decide)).2 (by decide)⟩

/-- C9, counterexample: the claim says the PUTS trap terminates for
every machine state, stopping at 0xFFFF as if an implicit terminator
were present when no 0x0000 occurs.  Evaluating TRAP PUTS with
R0 = 0xFFFD and no zero word anywhere from there on: the scan walks
0xFFFD, 0xFFFE, 0xFFFF and then dereferences past the end of the
65536-entry memory array — an out-of-bounds access, not a normal stop
(no completed iteration, no output is delivered). -/
theorem c9_counterexample :
    (step 0 c9State).isOob = true ∧ (step 0 c9State).isOk = false ∧
    (step 0 c9State).outAfter = none := by decide

/-- C9, amended: the PUTS scan terminates with the specified output for
every state in which a terminator exists: if some address t ≥ R0 inside
memory holds 0x0000 and every word before it (from R0 on) is nonzero,
the scan outputs the low 8 bits of each word from R0 up to t and stops
at t.  When no terminator exists, the scan does not stop at 0xFFFF: it
runs past the end of the memory array (see the counterexample). -/
theorem c9_puts_stops_at_first_zero (mem : Nat → Nat) (i t : Nat)
    (h1 : i ≤ t) (h2 : t < 65536) (h3 : mem t = 0)
    (h4 : ∀ a, i ≤ a → a < t → mem a ≠ 0) :
    putsScan mem i = some ((List.range' i (t - i)).map fun a => mem a % 256) := by
  unfold putsScan
  exact putsScanAux_terminator mem 70000 i t h1 h2 h3 h4 (by omega)

/-- C9, witness: the amended theorem evaluated on a two-character
string terminated at address 2. -/
theorem c9_witness : putsScan c9wMem 0 = some [72, 72] := by
  have h := c9_puts_stops_at_first_zero c9wMem 0 2 (by decide) (by decide) (by decide)
    (by intro a _ ha; unfold c9wMem; rw [if_pos ha]; decide)
  rw [h]
  decide

/-- C10: for JSR in register mode (bit 11 = 0) with BaseR = 7, the
source stores the post-fetch PC into R7 before reading BaseR, so the
instruction ends with PC equal to the post-fetch PC (fall-through to
the next instruction), and R7 holds that same value. -/
theorem c10_jsrr_r7_fall_through (s : Machine) (key instr : Nat)
    (hf : memRead s (s.reg 8) = some instr)
    (hop : instr >>> 12 = 4)
    (hbit : (instr >>> 11) &&& 1 = 0)
    (hbase : (instr >>> 6) &&& 0x7 = 7) :
    (step key s).pcAfter = some ((s.reg 8 + 1) % 65536) ∧
    (step key s).regAfter 7 = some ((s.reg 8 + 1) % 65536) := by
  unfold step
  rw [hf]
  simp [exec, hop, hbit, hbase, StepResult.pcAfter, StepResult.regAfter,
        StepResult.machineAfter, setReg_reg]

/-- C10, witness: the theorem evaluated on JSRR R7 (0x41C0) at
PC = 0x3000 with R7 = 0xAAAA: both PC and R7 end at 0x3001. -/
theorem c10_witness :
    (step 0 c10wState).pcAfter = some ((c10wState.reg 8 + 1) % 65536) ∧
    (step 0 c10wState).regAfter 7 = some ((c10wState.reg 8 + 1) % 65536) :=
  c10_jsrr_r7_fall_through c10wState 0 0x41C0 (by decide) (by decide) (by decide) (by decide)

end LC3
